import Mathlib

/-!
# Marivor storefront: shallow embedding of the cart aggregator and order status machine

This file embeds, in Lean, the session-cart logic and the order status
transition logic of the Marivor Flask application (`app.py`,
`supabase_utils.py`) and proves/refutes the specification's claims about
them.

Modelling conventions:
* Monetary amounts, quantities and stock counts are `ℚ`.  The Python code
  performs no type coercion on the JSON-supplied `quantity`, so any numeric
  value (including non-integers) flows through the comparisons unchanged;
  `ℚ` is the idealisation of that numeric domain (the code never divides,
  so float rounding plays no role in any claim considered here).
* The product table behind `SupabaseClient.get_product_for_cart` is a pure
  lookup `ℕ → Option Product` (the Product Lookup collaborator of the spec).
* Database writes (`create_order`, the `orders` table update) are collaborator
  calls assumed to succeed; the embedded functions return the value the route
  computes and stores.
* Session handling (login checks, missing-session initialisation) is outside
  the embedded core: each route function takes the current cart value and
  returns either an error kind or the updated cart, exactly as the route body
  does between reading and re-storing `session['cart']`.
-/

/-- A row of the `products` table, restricted to the fields the cart logic
reads (`id`, `name`, `price`, `stock`). -/
structure Product where
  id : ℕ
  name : String
  price : ℚ
  stock : ℚ
deriving DecidableEq

/-- The Product Lookup collaborator: `get_product_for_cart` as a pure map. -/
def ProductDb : Type := ℕ → Option Product

/-- One line of `session['cart']['items']`, restricted to the fields the cart
logic reads.  The source also stores `image_url`, `category`, `seller_name`
and `unit`, which no validation or total ever consults. -/
structure CartItem where
  product_id : ℕ
  name : String
  price : ℚ
  quantity : ℚ
  stock : ℚ
deriving DecidableEq

/-- `session['cart']`: ordered line items plus the two derived totals. -/
structure Cart where
  items : List CartItem
  total_items : ℚ
  total_price : ℚ
deriving DecidableEq

/-- The distinct error outcomes of the cart routes, one constructor per
distinct error message produced by `api_cart_add` / `api_cart_update` /
`api_cart_remove` / `validate_cart_item`. -/
inductive CartError where
  /-- app.py: `'Product ID is required'` (falsy `product_id`). -/
  | productIdRequired
  /-- supabase_utils.py: `'Quantity must be at least 1'`. -/
  | invalidQuantity
  /-- supabase_utils.py: `'Maximum quantity per item is 99'`. -/
  | maxQuantity
  /-- supabase_utils.py: `'Product not found'`. -/
  | productNotFound
  /-- supabase_utils.py: `'Only N items available in stock'`. -/
  | outOfStock
  /-- app.py: `'Item not found in cart'`. -/
  | itemNotFound
deriving DecidableEq

/-- `SupabaseClient.validate_cart_item(product_id, quantity)`: quantity must
be at least 1 and at most 99, the product must exist, and the product's stock
must cover the requested quantity — checked in that order. -/
def validate_cart_item (db : ProductDb) (product_id : ℕ) (quantity : ℚ) :
    Except CartError Product :=
  if quantity < 1 then .error .invalidQuantity
  else if 99 < quantity then .error .maxQuantity
  else
    match db product_id with
    | none => .error .productNotFound
    | some product =>
        if product.stock < quantity then .error .outOfStock
        else .ok product

/-- The cart line built by `api_cart_add` for a product not yet in the cart. -/
def mkCartItem (product : Product) (quantity : ℚ) : CartItem :=
  { product_id := product.id
    name := product.name
    price := product.price
    quantity := quantity
    stock := product.stock }

/-- The totals recomputation performed at the end of every successful cart
mutation: `total_items = sum(item['quantity'])`,
`total_price = sum(item['price'] * item['quantity'])`. -/
def recompute (cart : Cart) : Cart :=
  { cart with
    total_items := (cart.items.map (fun it => it.quantity)).sum
    total_price := (cart.items.map (fun it => it.price * it.quantity)).sum }

/-- The in-place quantity bump of `api_cart_add`'s existing-item branch: the
first line matching `product_id` gets its quantity increased by `quantity`. -/
def bumpFirst (product_id : ℕ) (quantity : ℚ) : List CartItem → List CartItem
  | [] => []
  | it :: rest =>
      if it.product_id = product_id then
        { it with quantity := it.quantity + quantity } :: rest
      else it :: bumpFirst product_id quantity rest

/-- `api_cart_add`: validate the requested quantity alone; if the product is
already in the cart, re-validate the cumulative quantity and bump the line,
otherwise append a fresh line; finally recompute both totals. -/
def api_cart_add (db : ProductDb) (product_id : ℕ) (quantity : ℚ)
    (cart : Cart) : Except CartError Cart :=
  if product_id = 0 then .error .productIdRequired
  else
    match validate_cart_item db product_id quantity with
    | .error e => .error e
    | .ok product =>
        match cart.items.find? (fun it => it.product_id == product_id) with
        | some existing =>
            match validate_cart_item db product_id
                (existing.quantity + quantity) with
            | .error e => .error e
            | .ok _ =>
                .ok (recompute
                  { cart with items := bumpFirst product_id quantity cart.items })
        | none =>
            .ok (recompute
              { cart with items := cart.items ++ [mkCartItem product quantity] })

/-- The item loop of `api_cart_update`: the first line matching `product_id`
is removed when the new quantity is ≤ 0, re-validated and overwritten when it
is positive; no match yields `'Item not found in cart'`. -/
def updateItems (db : ProductDb) (product_id : ℕ) (quantity : ℚ) :
    List CartItem → Except CartError (List CartItem)
  | [] => .error .itemNotFound
  | it :: rest =>
      if it.product_id = product_id then
        if quantity ≤ 0 then .ok rest
        else
          match validate_cart_item db product_id quantity with
          | .error e => .error e
          | .ok _ => .ok ({ it with quantity := quantity } :: rest)
      else
        match updateItems db product_id quantity rest with
        | .error e => .error e
        | .ok rest2 => .ok (it :: rest2)

/-- `api_cart_update`: set (not add) the matching line's quantity, then
recompute both totals. -/
def api_cart_update (db : ProductDb) (product_id : ℕ) (quantity : ℚ)
    (cart : Cart) : Except CartError Cart :=
  if product_id = 0 then .error .productIdRequired
  else
    match updateItems db product_id quantity cart.items with
    | .error e => .error e
    | .ok items2 => .ok (recompute { cart with items := items2 })

/-- The item loop of `api_cart_remove`: drop the first line matching
`product_id`; no match yields `'Item not found in cart'`. -/
def removeItems (product_id : ℕ) :
    List CartItem → Except CartError (List CartItem)
  | [] => .error .itemNotFound
  | it :: rest =>
      if it.product_id = product_id then .ok rest
      else
        match removeItems product_id rest with
        | .error e => .error e
        | .ok rest2 => .ok (it :: rest2)

/-- `api_cart_remove`: remove the matching line, then recompute both totals. -/
def api_cart_remove (product_id : ℕ) (cart : Cart) : Except CartError Cart :=
  if product_id = 0 then .error .productIdRequired
  else
    match removeItems product_id cart.items with
    | .error e => .error e
    | .ok items2 => .ok (recompute { cart with items := items2 })

/-- The freshly initialised cart `{'items': [], 'total_items': 0,
'total_price': 0.0}` (also the result of `api_cart_clear`). -/
def emptyCart : Cart := { items := [], total_items := 0, total_price := 0 }

/-- One request against the cart API. -/
inductive CartOp where
  | add (product_id : ℕ) (quantity : ℚ)
  | update (product_id : ℕ) (quantity : ℚ)
  | remove (product_id : ℕ)
deriving DecidableEq

/-- Apply one cart request: on success the session holds the returned cart,
on any error the route returns early and the session cart is untouched. -/
def applyOp (db : ProductDb) (cart : Cart) : CartOp → Cart
  | .add product_id quantity =>
      match api_cart_add db product_id quantity cart with
      | .ok cart2 => cart2
      | .error _ => cart
  | .update product_id quantity =>
      match api_cart_update db product_id quantity cart with
      | .ok cart2 => cart2
      | .error _ => cart
  | .remove product_id =>
      match api_cart_remove product_id cart with
      | .ok cart2 => cart2
      | .error _ => cart

/-- Apply a sequence of cart requests left to right. -/
def applyOps (db : ProductDb) (cart : Cart) (ops : List CartOp) : Cart :=
  ops.foldl (applyOp db) cart

/-- The spec's derived-totals invariant (§3). -/
def cartInvariant (cart : Cart) : Prop :=
  cart.total_items = (cart.items.map (fun it => it.quantity)).sum ∧
  cart.total_price = (cart.items.map (fun it => it.price * it.quantity)).sum

/-! ## Order status machine (admin route) -/

/-- The five statuses of `valid_statuses` in `admin_update_order_status`.
The route rejects any other request string with `'Invalid status'` before the
transition logic runs, so the transition logic only ever sees these five. -/
inductive OrderStatus where
  | pending
  | processing
  | on_delivery
  | completed
  | cancelled
deriving DecidableEq

/-- The `status_progressions` table of `admin_update_order_status`. -/
def status_progressions : OrderStatus → List OrderStatus
  | .pending => [.processing, .cancelled]
  | .processing => [.on_delivery, .cancelled]
  | .on_delivery => [.completed, .cancelled]
  | .completed => []
  | .cancelled => []

/-- The two transition error outcomes of `admin_update_order_status`. -/
inductive StatusError where
  /-- app.py: `'Order is already {new_status}'`. -/
  | sameStatus
  /-- app.py: `'Cannot change status from {current} to {new}'`. -/
  | illegalTransition
deriving DecidableEq

/-- An order as the status machine sees it: an id and a current status. -/
structure AdminOrder where
  id : ℕ
  status : OrderStatus
deriving DecidableEq

/-- The transition logic of `admin_update_order_status` once the order has
been fetched and the requested status parsed: same status is rejected first,
then anything off the progression table, and otherwise the `orders` row is
updated to the new status. -/
def admin_update_order_status (order : AdminOrder) (new_status : OrderStatus) :
    Except StatusError AdminOrder :=
  if order.status = new_status then .error .sameStatus
  else if new_status ∈ status_progressions order.status then
    .ok { order with status := new_status }
  else .error .illegalTransition

/-- Apply one admin status request, keeping the stored order unchanged when
the transition is rejected. -/
def applyAdminStatus (order : AdminOrder) (new_status : OrderStatus) :
    AdminOrder :=
  match admin_update_order_status order new_status with
  | .ok order2 => order2
  | .error _ => order

/-- The allow-list exactly as the claim states it: pending → processing or
cancelled, processing → on_delivery or cancelled, on_delivery → completed or
cancelled, nothing out of completed or cancelled.  Stated independently of
`status_progressions` so the code's table can be checked against it. -/
def claimAllows : OrderStatus → OrderStatus → Bool
  | .pending, .processing => true
  | .pending, .cancelled => true
  | .processing, .on_delivery => true
  | .processing, .cancelled => true
  | .on_delivery, .completed => true
  | .on_delivery, .cancelled => true
  | _, _ => false

/-! ## Order status update (seller route)

`seller_update_order_status` keeps statuses as raw strings (its vocabulary
even differs from the admin route: `shipped` instead of `on_delivery`) and
performs no progression check at all. -/

/-- The `valid_statuses` list of `seller_update_order_status`. -/
def seller_valid_statuses : List String :=
  ["pending", "processing", "shipped", "completed", "cancelled"]

/-- The error outcomes of `seller_update_order_status` relevant to the
transition behaviour. -/
inductive SellerStatusError where
  /-- app.py: `'Invalid status!'`. -/
  | invalidStatus
  /-- app.py: `'You can only update orders from your store!'`. -/
  | notYourOrder
deriving DecidableEq

/-- An order as the seller route sees it. -/
structure SellerOrder where
  id : ℕ
  seller_id : ℕ
  status : String
deriving DecidableEq

/-- The update logic of `seller_update_order_status` once the order has been
fetched: the requested status must be in the vocabulary and the order must
belong to the requesting seller; the current status is never consulted. -/
def seller_update_order_status (order : SellerOrder) (seller_id : ℕ)
    (new_status : String) : Except SellerStatusError SellerOrder :=
  if new_status ∈ seller_valid_statuses then
    if order.seller_id = seller_id then .ok { order with status := new_status }
    else .error .notYourOrder
  else .error .invalidStatus

/-! ## Order creation -/

/-- The fields of the per-item order row built by `api_order_create` /
`api_order_create_by_seller` that the claims mention: each cart line becomes
its own order with status `pending`, the line's total as `total_amount`, and
the single line as its item snapshot. -/
structure CreatedOrder where
  status : String
  total_amount : ℚ
  order_items : List CartItem
deriving DecidableEq

/-- The order row built for one cart line (status `'pending'`,
`total_amount = price * quantity`, a single-item snapshot). -/
def mkItemOrder (it : CartItem) : CreatedOrder :=
  { status := "pending"
    total_amount := it.price * it.quantity
    order_items := [it] }

/-- The error outcomes of the order-creation routes relevant to the claims. -/
inductive OrderCreateError where
  /-- app.py: `'Shipping address is required'`. -/
  | shippingRequired
  /-- app.py: `'Cart is empty'`. -/
  | cartEmpty
  /-- app.py: `'No items for this seller'`. -/
  | noSellerItems
deriving DecidableEq

/-- `api_order_create`: requires a shipping address and a non-empty session
cart, creates one `pending` order per cart line (the `create_order`
collaborator is assumed to succeed), and finally resets the session cart to
the empty cart.  Returns the created orders and the new session cart. -/
def api_order_create (shipping_address : String) (cart : Cart) :
    Except OrderCreateError (List CreatedOrder × Cart) :=
  if shipping_address = "" then .error .shippingRequired
  else if cart.items = [] ∨ cart.total_items = 0 then .error .cartEmpty
  else .ok (cart.items.map mkItemOrder, emptyCart)

/-- `api_order_create_by_seller`: requires a shipping address and a non-empty
request-supplied `seller_items` list, creates one `pending` order per item,
and never touches the session cart.  Returns the created orders and the
(unchanged) session cart. -/
def api_order_create_by_seller (shipping_address : String)
    (seller_items : List CartItem) (cart : Cart) :
    Except OrderCreateError (List CreatedOrder × Cart) :=
  if shipping_address = "" then .error .shippingRequired
  else if seller_items = [] then .error .noSellerItems
  else .ok (seller_items.map mkItemOrder, cart)

/-- Decidable equality of route results, so concrete runs of the embedded
routes can be checked by `decide`. -/
instance {ε α : Type} [DecidableEq ε] [DecidableEq α] :
    DecidableEq (Except ε α) := fun a b =>
  match a, b with
  | .error e, .error f =>
      if h : e = f then .isTrue (by rw [h])
      else .isFalse fun hc => by cases hc; exact h rfl
  | .error _, .ok _ => .isFalse fun hc => Except.noConfusion hc
  | .ok _, .error _ => .isFalse fun hc => Except.noConfusion hc
  | .ok x, .ok y =>
      if h : x = y then .isTrue (by rw [h])
      else .isFalse fun hc => by cases hc; exact h rfl

/-! ## Sample data used by concrete witnesses and counterexamples -/

/-- The spec's scenario product `productA{price=100, stock=5}`. -/
def productA : Product := { id := 1, name := "Tilapia", price := 100, stock := 5 }

/-- A high-stock product (stock 200). -/
def productB : Product := { id := 2, name := "Kangkong", price := 20, stock := 200 }

/-- A product with stock 90. -/
def productC : Product := { id := 3, name := "Bangus", price := 10, stock := 90 }

/-- A small concrete product table containing `productA`, `productB`,
`productC`. -/
def sampleDb : ProductDb := fun product_id =>
  if product_id = 1 then some productA
  else if product_id = 2 then some productB
  else if product_id = 3 then some productC
  else none

/-! ## Helper lemmas -/

/-- A recomputed cart satisfies the derived-totals invariant by
construction. -/
lemma recompute_invariant (cart : Cart) : cartInvariant (recompute cart) :=
  ⟨rfl, rfl⟩

/-- What a successful `validate_cart_item` guarantees: quantity in `[1, 99]`,
the product present in the table, and stock covering the quantity. -/
lemma validate_cart_item_ok {db : ProductDb} {product_id : ℕ} {quantity : ℚ}
    {product : Product}
    (h : validate_cart_item db product_id quantity = .ok product) :
    1 ≤ quantity ∧ quantity ≤ 99 ∧ db product_id = some product ∧
      quantity ≤ product.stock := by
  unfold validate_cart_item at h
  by_cases hq1 : quantity < 1
  · simp only [if_pos hq1] at h
    exact Except.noConfusion h
  by_cases hq99 : 99 < quantity
  · simp only [if_neg hq1, if_pos hq99] at h
    exact Except.noConfusion h
  cases hdb : db product_id with
  | none =>
      simp only [if_neg hq1, if_neg hq99, hdb] at h
      exact Except.noConfusion h
  | some product2 =>
      simp only [if_neg hq1, if_neg hq99, hdb] at h
      by_cases hstock : product2.stock < quantity
      · simp only [if_pos hstock] at h
        exact Except.noConfusion h
      · simp only [if_neg hstock] at h
        cases h
        exact ⟨le_of_not_lt hq1, le_of_not_lt hq99, rfl,
          le_of_not_lt hstock⟩

/-- `validate_cart_item` in terms of its four checks, in source order. -/
lemma validate_cart_item_eq (db : ProductDb) (product_id : ℕ) (quantity : ℚ) :
    validate_cart_item db product_id quantity =
      if quantity < 1 then .error .invalidQuantity
      else if 99 < quantity then .error .maxQuantity
      else
        match db product_id with
        | none => .error .productNotFound
        | some product =>
            if product.stock < quantity then .error .outOfStock
            else .ok product := rfl

/-- The shape of every successful `api_cart_add`: either the product was
already in the cart (both validations passed, the first matching line is
bumped) or it was absent (a fresh line is appended); either way the totals
are recomputed. -/
lemma api_cart_add_ok_shape {db : ProductDb} {product_id : ℕ} {quantity : ℚ}
    {cart cart2 : Cart}
    (h : api_cart_add db product_id quantity cart = .ok cart2) :
    ∃ product, validate_cart_item db product_id quantity = .ok product ∧
      ((∃ existing p2,
          cart.items.find? (fun it => it.product_id == product_id) =
            some existing ∧
          validate_cart_item db product_id (existing.quantity + quantity) =
            .ok p2 ∧
          cart2 = recompute
            { cart with items := bumpFirst product_id quantity cart.items }) ∨
       (cart.items.find? (fun it => it.product_id == product_id) = none ∧
          cart2 = recompute
            { cart with
              items := cart.items ++ [mkCartItem product quantity] })) := by
  unfold api_cart_add at h
  split at h
  · exact Except.noConfusion h
  · split at h
    · exact Except.noConfusion h
    · next product hv =>
        split at h
        · next existing hfind =>
            split at h
            · exact Except.noConfusion h
            · next p2 hv2 =>
                cases h
                exact ⟨product, hv, Or.inl ⟨existing, p2, hfind, hv2, rfl⟩⟩
        · next hfind =>
            cases h
            exact ⟨product, hv, Or.inr ⟨hfind, rfl⟩⟩

/-- The shape of every successful `api_cart_update`. -/
lemma api_cart_update_ok_shape {db : ProductDb} {product_id : ℕ}
    {quantity : ℚ} {cart cart2 : Cart}
    (h : api_cart_update db product_id quantity cart = .ok cart2) :
    ∃ items2, updateItems db product_id quantity cart.items = .ok items2 ∧
      cart2 = recompute { cart with items := items2 } := by
  unfold api_cart_update at h
  split at h
  · exact Except.noConfusion h
  · split at h
    · exact Except.noConfusion h
    · next items2 hu =>
        cases h
        exact ⟨items2, hu, rfl⟩

/-- The shape of every successful `api_cart_remove`. -/
lemma api_cart_remove_ok_shape {product_id : ℕ} {cart cart2 : Cart}
    (h : api_cart_remove product_id cart = .ok cart2) :
    ∃ items2, removeItems product_id cart.items = .ok items2 ∧
      cart2 = recompute { cart with items := items2 } := by
  unfold api_cart_remove at h
  split at h
  · exact Except.noConfusion h
  · split at h
    · exact Except.noConfusion h
    · next items2 hr =>
        cases h
        exact ⟨items2, hr, rfl⟩

/-- A successful cart mutation always ends in `recompute`, so the result
satisfies the derived-totals invariant. -/
lemma applyOp_invariant (db : ProductDb) (cart : Cart) (op : CartOp)
    (h : cartInvariant cart) : cartInvariant (applyOp db cart op) := by
  cases op with
  | add product_id quantity =>
      simp only [applyOp]
      split
      · next cart2 hok =>
          obtain ⟨product, -, hshape⟩ := api_cart_add_ok_shape hok
          rcases hshape with ⟨ex, p2, -, -, rfl⟩ | ⟨-, rfl⟩ <;>
            exact recompute_invariant _
      · exact h
  | update product_id quantity =>
      simp only [applyOp]
      split
      · next cart2 hok =>
          obtain ⟨items2, -, rfl⟩ := api_cart_update_ok_shape hok
          exact recompute_invariant _
      · exact h
  | remove product_id =>
      simp only [applyOp]
      split
      · next cart2 hok =>
          obtain ⟨items2, -, rfl⟩ := api_cart_remove_ok_shape hok
          exact recompute_invariant _
      · exact h

/-- Any transition request against a `completed` or `cancelled` order is
rejected: either as a same-status request or, the progression list being
empty, as an illegal transition. -/
lemma admin_terminal_error (order : AdminOrder) (new_status : OrderStatus)
    (h : order.status = .completed ∨ order.status = .cancelled) :
    ∃ e, admin_update_order_status order new_status = .error e := by
  by_cases hsame : order.status = new_status
  · exact ⟨.sameStatus, by simp [admin_update_order_status, hsame]⟩
  · have hprog : status_progressions order.status = [] := by
      rcases h with h | h <;> rw [h] <;> rfl
    exact ⟨.illegalTransition,
      by simp [admin_update_order_status, hsame, hprog]⟩

/-- A rejected transition leaves the stored order unchanged. -/
lemma admin_terminal_fix (order : AdminOrder) (new_status : OrderStatus)
    (h : order.status = .completed ∨ order.status = .cancelled) :
    applyAdminStatus order new_status = order := by
  obtain ⟨e, he⟩ := admin_terminal_error order new_status h
  simp [applyAdminStatus, he]

/-- C1: for every sequence of cart add, update and remove operations starting
from the freshly initialised cart, after each operation the cart's
`total_items` equals the sum of the line quantities and `total_price` equals
the sum of quantity times unit price over the current lines; moreover a
single operation preserves the invariant from any cart satisfying it. -/
theorem cart_totals_invariant (db : ProductDb) :
    (∀ cart op, cartInvariant cart → cartInvariant (applyOp db cart op)) ∧
    ∀ ops : List CartOp, cartInvariant (applyOps db emptyCart ops) := by
  refine ⟨fun cart op h => applyOp_invariant db cart op h, ?_⟩
  intro ops
  have key : ∀ (l : List CartOp) (c : Cart),
      cartInvariant c → cartInvariant (applyOps db c l) := by
    intro l
    induction l with
    | nil => exact fun c hc => hc
    | cons op rest ih => exact fun c hc => ih _ (applyOp_invariant db c op hc)
  exact key ops emptyCart ⟨rfl, rfl⟩

/-- Witness for C1 at a concrete product table and operation sequence. -/
theorem cart_totals_invariant_witness :
    cartInvariant (applyOp sampleDb emptyCart (.add 1 2)) ∧
    cartInvariant
      (applyOps sampleDb emptyCart
        [.add 1 2, .add 1 10, .update 1 3, .remove 1]) :=
  ⟨(cart_totals_invariant sampleDb).1 emptyCart (.add 1 2) ⟨rfl, rfl⟩,
   (cart_totals_invariant sampleDb).2 [.add 1 2, .add 1 10, .update 1 3, .remove 1]⟩

/-- C2: `admin_update_order_status` rejects a same-status request with the
`'already'` error, rejects any target not on the claim's allow-list (pending →
processing/cancelled, processing → on_delivery/cancelled, on_delivery →
completed/cancelled) as an illegal transition, and otherwise stores the order
with exactly the requested status. -/
theorem admin_transition_correct (order : AdminOrder)
    (new_status : OrderStatus) :
    (new_status = order.status →
      admin_update_order_status order new_status = .error .sameStatus) ∧
    (new_status ≠ order.status →
      claimAllows order.status new_status = false →
      admin_update_order_status order new_status = .error .illegalTransition) ∧
    (new_status ≠ order.status →
      claimAllows order.status new_status = true →
      admin_update_order_status order new_status =
        .ok { order with status := new_status }) := by
  obtain ⟨i, s⟩ := order
  cases s <;> cases new_status <;>
    simp [admin_update_order_status, status_progressions, claimAllows]

/-- Witness for C2: the three outcomes at concrete orders and targets. -/
theorem admin_transition_correct_witness :
    admin_update_order_status ⟨5, .pending⟩ .pending = .error .sameStatus ∧
    admin_update_order_status ⟨5, .pending⟩ .on_delivery =
      .error .illegalTransition ∧
    admin_update_order_status ⟨5, .pending⟩ .processing =
      .ok ⟨5, .processing⟩ :=
  ⟨(admin_transition_correct ⟨5, .pending⟩ .pending).1 rfl,
   (admin_transition_correct ⟨5, .pending⟩ .on_delivery).2.1 (by decide)
     (by decide),
   (admin_transition_correct ⟨5, .pending⟩ .processing).2.2 (by decide)
     (by decide)⟩

/-- C3 counterexample: the seller route performs no progression validation,
so an order already `completed` is moved straight back to `processing` —
the claim that every transition request out of a terminal status fails is
false for `seller_update_order_status`. -/
theorem seller_route_escapes_terminal :
    seller_update_order_status ⟨7, 3, "completed"⟩ 3 "processing" =
      .ok ⟨7, 3, "processing"⟩ := by
  rfl

/-- C3 amended: under the admin route, `completed` and `cancelled` are
terminal — every transition request out of them fails, and no sequence of
admin status requests moves an order out of a terminal status.  (The seller
route, which skips progression validation, is exempted by the
counterexample.) -/
theorem admin_terminal_no_escape (order : AdminOrder)
    (new_status : OrderStatus)
    (h : order.status = .completed ∨ order.status = .cancelled) :
    (∃ e, admin_update_order_status order new_status = .error e) ∧
    ∀ requests : List OrderStatus,
      requests.foldl applyAdminStatus order = order := by
  refine ⟨admin_terminal_error order new_status h, ?_⟩
  intro requests
  induction requests with
  | nil => rfl
  | cons r rest ih =>
      rw [List.foldl_cons, admin_terminal_fix order r h]
      exact ih

/-- Witness for the amended C3 at a concrete completed order. -/
theorem admin_terminal_no_escape_witness :
    (∃ e, admin_update_order_status ⟨9, .completed⟩ .pending = .error e) ∧
    [OrderStatus.pending, OrderStatus.processing,
      OrderStatus.cancelled].foldl applyAdminStatus ⟨9, .completed⟩ =
      ⟨9, .completed⟩ :=
  ⟨(admin_terminal_no_escape ⟨9, .completed⟩ .pending (Or.inl rfl)).1,
   (admin_terminal_no_escape ⟨9, .completed⟩ .pending (Or.inl rfl)).2
     [.pending, .processing, .cancelled]⟩

/-- `find?` locates the first matching line of a split list. -/
lemma find_first_split (product_id : ℕ) (pre : List CartItem) (it : CartItem)
    (post : List CartItem) (hpre : ∀ jt ∈ pre, jt.product_id ≠ product_id)
    (hit : it.product_id = product_id) :
    (pre ++ it :: post).find? (fun x => x.product_id == product_id) =
      some it := by
  induction pre with
  | nil =>
      exact List.find?_cons_of_pos _ (by simp [hit])
  | cons jt rest ih =>
      rw [List.cons_append, List.find?_cons_of_neg _ (by
        simp only [beq_iff_eq]
        exact hpre jt (List.mem_cons_self jt rest))]
      exact ih fun x hx => hpre x (List.mem_cons_of_mem _ hx)

/-- `find?` misses every line of a match-free list. -/
lemma find_none (product_id : ℕ) (l : List CartItem)
    (h : ∀ jt ∈ l, jt.product_id ≠ product_id) :
    l.find? (fun x => x.product_id == product_id) = none :=
  List.find?_eq_none.mpr fun x hx => by
    simp only [beq_iff_eq]
    exact h x hx

/-- `bumpFirst` on a split list bumps exactly the first matching line. -/
lemma bumpFirst_split (product_id : ℕ) (quantity : ℚ) (pre : List CartItem)
    (it : CartItem) (post : List CartItem)
    (hpre : ∀ jt ∈ pre, jt.product_id ≠ product_id)
    (hit : it.product_id = product_id) :
    bumpFirst product_id quantity (pre ++ it :: post) =
      pre ++ { it with quantity := it.quantity + quantity } :: post := by
  induction pre with
  | nil => simp [bumpFirst, hit]
  | cons jt rest ih =>
      simp only [List.cons_append, List.append_eq, bumpFirst]
      rw [if_neg (hpre jt (List.mem_cons_self jt rest)),
        ih fun x hx => hpre x (List.mem_cons_of_mem _ hx)]

/-- `updateItems` on a match-free list reports `'Item not found in cart'`. -/
lemma updateItems_none (db : ProductDb) (product_id : ℕ) (quantity : ℚ)
    (l : List CartItem) (h : ∀ jt ∈ l, jt.product_id ≠ product_id) :
    updateItems db product_id quantity l = .error .itemNotFound := by
  induction l with
  | nil => rfl
  | cons jt rest ih =>
      simp only [updateItems]
      rw [if_neg (h jt (List.mem_cons_self jt rest)),
        ih fun x hx => h x (List.mem_cons_of_mem _ hx)]

/-- `updateItems` with a non-positive quantity removes the first matching
line. -/
lemma updateItems_split_nonpos (db : ProductDb) (product_id : ℕ)
    (quantity : ℚ) (pre : List CartItem) (it : CartItem)
    (post : List CartItem) (hq : quantity ≤ 0)
    (hpre : ∀ jt ∈ pre, jt.product_id ≠ product_id)
    (hit : it.product_id = product_id) :
    updateItems db product_id quantity (pre ++ it :: post) =
      .ok (pre ++ post) := by
  induction pre with
  | nil => simp [updateItems, hit, hq]
  | cons jt rest ih =>
      simp only [List.cons_append, List.append_eq, updateItems]
      rw [if_neg (hpre jt (List.mem_cons_self jt rest)),
        ih fun x hx => hpre x (List.mem_cons_of_mem _ hx)]

/-- `updateItems` with a positive, valid quantity overwrites the first
matching line's quantity. -/
lemma updateItems_split_pos (db : ProductDb) (product_id : ℕ) (quantity : ℚ)
    (pre : List CartItem) (it : CartItem) (post : List CartItem)
    (product2 : Product) (hq : ¬ quantity ≤ 0)
    (hv : validate_cart_item db product_id quantity = .ok product2)
    (hpre : ∀ jt ∈ pre, jt.product_id ≠ product_id)
    (hit : it.product_id = product_id) :
    updateItems db product_id quantity (pre ++ it :: post) =
      .ok (pre ++ { it with quantity := quantity } :: post) := by
  induction pre with
  | nil => simp [updateItems, hit, hq, hv]
  | cons jt rest ih =>
      simp only [List.cons_append, List.append_eq, updateItems]
      rw [if_neg (hpre jt (List.mem_cons_self jt rest)),
        ih fun x hx => hpre x (List.mem_cons_of_mem _ hx)]

/-- `updateItems` with a positive but invalid quantity propagates the
validation error. -/
lemma updateItems_split_pos_err (db : ProductDb) (product_id : ℕ)
    (quantity : ℚ) (pre : List CartItem) (it : CartItem)
    (post : List CartItem) (e : CartError) (hq : ¬ quantity ≤ 0)
    (hv : validate_cart_item db product_id quantity = .error e)
    (hpre : ∀ jt ∈ pre, jt.product_id ≠ product_id)
    (hit : it.product_id = product_id) :
    updateItems db product_id quantity (pre ++ it :: post) = .error e := by
  induction pre with
  | nil => simp [updateItems, hit, hq, hv]
  | cons jt rest ih =>
      simp only [List.cons_append, List.append_eq, updateItems]
      rw [if_neg (hpre jt (List.mem_cons_self jt rest)),
        ih fun x hx => hpre x (List.mem_cons_of_mem _ hx)]

/-- `removeItems` on a match-free list reports `'Item not found in cart'`. -/
lemma removeItems_none (product_id : ℕ) (l : List CartItem)
    (h : ∀ jt ∈ l, jt.product_id ≠ product_id) :
    removeItems product_id l = .error .itemNotFound := by
  induction l with
  | nil => rfl
  | cons jt rest ih =>
      simp only [removeItems]
      rw [if_neg (h jt (List.mem_cons_self jt rest)),
        ih fun x hx => h x (List.mem_cons_of_mem _ hx)]

/-- `removeItems` drops exactly the first matching line. -/
lemma removeItems_split (product_id : ℕ) (pre : List CartItem)
    (it : CartItem) (post : List CartItem)
    (hpre : ∀ jt ∈ pre, jt.product_id ≠ product_id)
    (hit : it.product_id = product_id) :
    removeItems product_id (pre ++ it :: post) = .ok (pre ++ post) := by
  induction pre with
  | nil => simp [removeItems, hit]
  | cons jt rest ih =>
      simp only [List.cons_append, List.append_eq, removeItems]
      rw [if_neg (hpre jt (List.mem_cons_self jt rest)),
        ih fun x hx => hpre x (List.mem_cons_of_mem _ hx)]

/-- `recompute` only looks at the `items` field. -/
lemma recompute_items (cart : Cart) (l : List CartItem) :
    recompute { cart with items := l } =
      ⟨l, (l.map (fun it => it.quantity)).sum,
        (l.map (fun it => it.price * it.quantity)).sum⟩ := rfl

/-- `validate_cart_item` once the quantity bounds hold: only the stock check
remains. -/
lemma validate_eval (db : ProductDb) (product_id : ℕ) (quantity : ℚ)
    (product : Product) (hq1 : 1 ≤ quantity) (hq99 : quantity ≤ 99)
    (hdb : db product_id = some product) :
    validate_cart_item db product_id quantity =
      if product.stock < quantity then .error .outOfStock
      else .ok product := by
  simp [validate_cart_item, not_lt.mpr hq1, not_lt.mpr hq99, hdb]

/-- `api_cart_add` when the first validation fails. -/
lemma api_cart_add_validate_err {db : ProductDb} {product_id : ℕ}
    {quantity : ℚ} {e : CartError} (cart : Cart) (hpid : product_id ≠ 0)
    (hv : validate_cart_item db product_id quantity = .error e) :
    api_cart_add db product_id quantity cart = .error e := by
  simp [api_cart_add, hpid, hv]

/-- `api_cart_add` for a product not yet in the cart: a fresh line is
appended at the end and the totals are recomputed. -/
lemma api_cart_add_absent {db : ProductDb} {product_id : ℕ} {quantity : ℚ}
    {product : Product} (cart : Cart) (hpid : product_id ≠ 0)
    (hv : validate_cart_item db product_id quantity = .ok product)
    (habs : ∀ jt ∈ cart.items, jt.product_id ≠ product_id) :
    api_cart_add db product_id quantity cart =
      .ok (recompute
        { cart with items := cart.items ++ [mkCartItem product quantity] }) := by
  simp [api_cart_add, hpid, hv, find_none product_id cart.items habs]

/-- `api_cart_add` for a product already in the cart with a valid cumulative
quantity: the first matching line is bumped in place. -/
lemma api_cart_add_present {db : ProductDb} {product_id : ℕ} {quantity : ℚ}
    {product product2 : Product} (cart : Cart) (pre : List CartItem)
    (it : CartItem) (post : List CartItem) (hpid : product_id ≠ 0)
    (hv : validate_cart_item db product_id quantity = .ok product)
    (hsplit : cart.items = pre ++ it :: post)
    (hpre : ∀ jt ∈ pre, jt.product_id ≠ product_id)
    (hit : it.product_id = product_id)
    (hv2 : validate_cart_item db product_id (it.quantity + quantity) =
      .ok product2) :
    api_cart_add db product_id quantity cart =
      .ok (recompute
        { cart with
          items :=
            pre ++ { it with quantity := it.quantity + quantity } :: post }) := by
  simp only [api_cart_add, if_neg hpid, hv, hsplit,
    find_first_split product_id pre it post hpre hit, hv2,
    bumpFirst_split product_id quantity pre it post hpre hit]

/-- `api_cart_add` for a product already in the cart whose cumulative
quantity fails validation: the error is returned and nothing is modified. -/
lemma api_cart_add_present_err {db : ProductDb} {product_id : ℕ}
    {quantity : ℚ} {product : Product} {e : CartError} (cart : Cart)
    (pre : List CartItem) (it : CartItem) (post : List CartItem)
    (hpid : product_id ≠ 0)
    (hv : validate_cart_item db product_id quantity = .ok product)
    (hsplit : cart.items = pre ++ it :: post)
    (hpre : ∀ jt ∈ pre, jt.product_id ≠ product_id)
    (hit : it.product_id = product_id)
    (hv2 : validate_cart_item db product_id (it.quantity + quantity) =
      .error e) :
    api_cart_add db product_id quantity cart = .error e := by
  simp only [api_cart_add, if_neg hpid, hv, hsplit,
    find_first_split product_id pre it post hpre hit, hv2]

/-- C7: `api_cart_update` sets the matching line's quantity directly: with no
matching line it fails with `'Item not found in cart'`; a quantity ≤ 0
removes the line entirely, after which removing the same product fails with
`'Item not found in cart'`; a positive quantity is re-validated (stock limit
included) and on success overwrites — not adds to — the line's quantity,
while a validation failure is returned unchanged. -/
theorem cart_update_spec (db : ProductDb) (product_id : ℕ) (quantity : ℚ)
    (cart : Cart) (hpid : product_id ≠ 0) :
    ((∀ jt ∈ cart.items, jt.product_id ≠ product_id) →
       api_cart_update db product_id quantity cart = .error .itemNotFound) ∧
    (∀ pre it post, cart.items = pre ++ it :: post →
       (∀ jt ∈ pre, jt.product_id ≠ product_id) →
       it.product_id = product_id →
       ((quantity ≤ 0 → (∀ jt ∈ post, jt.product_id ≠ product_id) →
          api_cart_update db product_id quantity cart =
            .ok (recompute { cart with items := pre ++ post }) ∧
          api_cart_remove product_id
              (recompute { cart with items := pre ++ post }) =
            .error .itemNotFound) ∧
        (¬ quantity ≤ 0 → ∀ product2,
          validate_cart_item db product_id quantity = .ok product2 →
          api_cart_update db product_id quantity cart =
            .ok (recompute
              { cart with
                items := pre ++ { it with quantity := quantity } :: post })) ∧
        (¬ quantity ≤ 0 → ∀ e,
          validate_cart_item db product_id quantity = .error e →
          api_cart_update db product_id quantity cart = .error e))) := by
  constructor
  · intro habs
    simp [api_cart_update, hpid,
      updateItems_none db product_id quantity cart.items habs]
  · intro pre it post hsplit hpre hit
    refine ⟨?_, ?_, ?_⟩
    · intro hq hpost
      constructor
      · simp only [api_cart_update, if_neg hpid, hsplit,
          updateItems_split_nonpos db product_id quantity pre it post hq
            hpre hit]
      · have hno : ∀ jt ∈ pre ++ post, jt.product_id ≠ product_id := by
          intro jt hjt
          rcases List.mem_append.mp hjt with h | h
          exacts [hpre jt h, hpost jt h]
        simp [api_cart_remove, hpid, recompute_items,
          removeItems_none product_id (pre ++ post) hno]
    · intro hq product2 hv
      simp only [api_cart_update, if_neg hpid, hsplit,
        updateItems_split_pos db product_id quantity pre it post product2 hq
          hv hpre hit]
    · intro hq e hv
      simp only [api_cart_update, if_neg hpid, hsplit,
        updateItems_split_pos_err db product_id quantity pre it post e hq hv
          hpre hit]

/-- Witness for C7 at concrete carts: a miss, a quantity-0 removal followed
by a failing remove, and a direct overwrite to quantity 3. -/
theorem cart_update_spec_witness :
    api_cart_update sampleDb 1 5 emptyCart = .error .itemNotFound ∧
    api_cart_update sampleDb 1 0 ⟨[mkCartItem productA 2], 2, 200⟩ =
      .ok emptyCart ∧
    api_cart_remove 1 emptyCart = .error .itemNotFound ∧
    api_cart_update sampleDb 1 3 ⟨[mkCartItem productA 2], 2, 200⟩ =
      .ok ⟨[{ mkCartItem productA 2 with quantity := 3 }], 3, 300⟩ := by
  refine ⟨(cart_update_spec sampleDb 1 5 emptyCart (by decide)).1
      (by simp [emptyCart]),
    ?_, ?_, ?_⟩
  · exact (((cart_update_spec sampleDb 1 0 ⟨[mkCartItem productA 2], 2, 200⟩
      (by decide)).2 [] (mkCartItem productA 2) [] rfl (by simp) rfl).1
      le_rfl (by simp)).1
  · exact (((cart_update_spec sampleDb 1 0 ⟨[mkCartItem productA 2], 2, 200⟩
      (by decide)).2 [] (mkCartItem productA 2) [] rfl (by simp) rfl).1
      le_rfl (by simp)).2
  · exact ((((cart_update_spec sampleDb 1 3 ⟨[mkCartItem productA 2], 2, 200⟩
      (by decide)).2 [] (mkCartItem productA 2) [] rfl (by simp) rfl).2.1
      (by norm_num) productA
      (by norm_num [validate_cart_item, sampleDb, productA, mkCartItem])).trans
      (by norm_num [recompute, mkCartItem, productA]))

/-- C8: on a successful add, a product already in the cart has its (first
and only) line's quantity increased by the requested amount after the single
combined cumulative validation, and an absent product gets a fresh line
appended at the end, the existing lines keeping their positions in both
cases. -/
theorem cart_add_spec (db : ProductDb) (product_id : ℕ) (quantity : ℚ)
    (cart : Cart) (product : Product) (hpid : product_id ≠ 0)
    (hv : validate_cart_item db product_id quantity = .ok product) :
    ((∀ jt ∈ cart.items, jt.product_id ≠ product_id) →
       api_cart_add db product_id quantity cart =
         .ok (recompute
           { cart with
             items := cart.items ++ [mkCartItem product quantity] })) ∧
    (∀ pre it post, cart.items = pre ++ it :: post →
       (∀ jt ∈ pre, jt.product_id ≠ product_id) →
       it.product_id = product_id →
       (∀ product2,
          validate_cart_item db product_id (it.quantity + quantity) =
            .ok product2 →
          api_cart_add db product_id quantity cart =
            .ok (recompute
              { cart with
                items :=
                  pre ++ { it with quantity := it.quantity + quantity } ::
                    post })) ∧
       (∀ e,
          validate_cart_item db product_id (it.quantity + quantity) =
            .error e →
          api_cart_add db product_id quantity cart = .error e)) :=
  ⟨fun habs => api_cart_add_absent cart hpid hv habs,
   fun pre it post hs hp hi =>
     ⟨fun _ hv2 => api_cart_add_present cart pre it post hpid hv hs hp hi hv2,
      fun _ hv2 =>
        api_cart_add_present_err cart pre it post hpid hv hs hp hi hv2⟩⟩

/-- Witness for C8: appending to an empty cart, and merging into a cart that
already holds the product behind another line, which keeps its position. -/
theorem cart_add_spec_witness :
    api_cart_add sampleDb 1 2 emptyCart =
      .ok ⟨[mkCartItem productA 2], 2, 200⟩ ∧
    api_cart_add sampleDb 1 2
        ⟨[mkCartItem productB 5, mkCartItem productA 1], 6, 200⟩ =
      .ok ⟨[mkCartItem productB 5,
        { mkCartItem productA 1 with quantity := 1 + 2 }], 8, 400⟩ := by
  constructor
  · exact ((cart_add_spec sampleDb 1 2 emptyCart productA (by decide)
      (by norm_num [validate_cart_item, sampleDb, productA])).1
      (by simp [emptyCart])).trans
      (by norm_num [recompute, mkCartItem, productA, emptyCart])
  · exact (((cart_add_spec sampleDb 1 2
      ⟨[mkCartItem productB 5, mkCartItem productA 1], 6, 200⟩ productA
      (by decide)
      (by norm_num [validate_cart_item, sampleDb, productA])).2
      [mkCartItem productB 5] (mkCartItem productA 1) []
      rfl (by norm_num [mkCartItem, productB]) rfl).1 productA
      (by norm_num [validate_cart_item, sampleDb, productA, mkCartItem])).trans
      (by norm_num [recompute, mkCartItem, productA, productB])

/-- C4 counterexample: with stock 90 and 50 already in the cart, adding 50
more exceeds the stock limit (100 > 90), yet the failure is the max-quantity
error (the 99-cap check fires first), not `OutOfStock` as the claim
demands. -/
theorem add_cumulative_over99_not_outofstock :
    api_cart_add sampleDb 3 50 ⟨[mkCartItem productC 50], 50, 500⟩ =
      .error .maxQuantity ∧
    productC.stock < 50 + 50 ∧
    CartError.maxQuantity ≠ CartError.outOfStock := by
  refine ⟨?_, by norm_num [productC], by decide⟩
  norm_num [api_cart_add, validate_cart_item, sampleDb, productC, mkCartItem,
    List.find?]

/-- C4 amended: when the product is already in the cart and the cumulative
quantity `q0 + q` stays within the 99 cap but exceeds the product's stock,
the add fails with `OutOfStock` — the stock check is indeed made against the
cumulative quantity — and the session cart is left unchanged.  (When the
cumulative quantity also breaks the 99 cap, the failure is the max-quantity
error instead, per the counterexample.) -/
theorem add_cumulative_out_of_stock (db : ProductDb) (product_id : ℕ)
    (q : ℚ) (cart : Cart) (product : Product) (pre : List CartItem)
    (it : CartItem) (post : List CartItem)
    (hpid : product_id ≠ 0) (hdb : db product_id = some product)
    (hsplit : cart.items = pre ++ it :: post)
    (hpre : ∀ jt ∈ pre, jt.product_id ≠ product_id)
    (hit : it.product_id = product_id)
    (hq0 : 0 ≤ it.quantity) (hq : 1 ≤ q)
    (hcum99 : it.quantity + q ≤ 99)
    (hstock : product.stock < it.quantity + q) :
    api_cart_add db product_id q cart = .error .outOfStock ∧
    applyOp db cart (.add product_id q) = cart := by
  have hq99 : q ≤ 99 := by linarith
  have herr : api_cart_add db product_id q cart = .error .outOfStock := by
    by_cases hsq : product.stock < q
    · exact api_cart_add_validate_err cart hpid
        (by rw [validate_eval db product_id q product hq hq99 hdb,
          if_pos hsq])
    · have hv : validate_cart_item db product_id q = .ok product := by
        rw [validate_eval db product_id q product hq hq99 hdb, if_neg hsq]
      have hv2 : validate_cart_item db product_id (it.quantity + q) =
          .error .outOfStock := by
        rw [validate_eval db product_id (it.quantity + q) product
          (by linarith) hcum99 hdb, if_pos hstock]
      exact api_cart_add_present_err cart pre it post hpid hv hsplit hpre
        hit hv2
  exact ⟨herr, by simp [applyOp, herr]⟩

/-- Witness for the amended C4: the spec's own scenario — stock 5, 2 in the
cart, adding 10 fails `OutOfStock` on the cumulative 12 and the cart stays
as it was. -/
theorem add_cumulative_out_of_stock_witness :
    api_cart_add sampleDb 1 10 ⟨[mkCartItem productA 2], 2, 200⟩ =
      .error .outOfStock ∧
    applyOp sampleDb ⟨[mkCartItem productA 2], 2, 200⟩ (.add 1 10) =
      ⟨[mkCartItem productA 2], 2, 200⟩ :=
  add_cumulative_out_of_stock sampleDb 1 10
    ⟨[mkCartItem productA 2], 2, 200⟩ productA [] (mkCartItem productA 2) []
    (by decide) rfl rfl (by simp) rfl (by norm_num [mkCartItem, productA])
    (by norm_num) (by norm_num [mkCartItem, productA])
    (by norm_num [mkCartItem, productA])

/-- C5 counterexample: `api_order_create_by_seller` succeeds on
request-supplied items while the non-empty session cart is passed through
untouched — the originating cart is not cleared. -/
theorem seller_order_create_keeps_cart :
    api_order_create_by_seller "addr" [mkCartItem productA 2]
        ⟨[mkCartItem productA 2], 2, 200⟩ =
      .ok ([mkItemOrder (mkCartItem productA 2)],
        ⟨[mkCartItem productA 2], 2, 200⟩) ∧
    (⟨[mkCartItem productA 2], 2, 200⟩ : Cart) ≠ emptyCart :=
  ⟨rfl, by decide⟩

/-- C5 amended: `api_order_create` fails with `'Cart is empty'` on an empty
session cart and, on success, creates one pending order per line and resets
the session cart to the empty cart; `api_order_create_by_seller` works from
the request's `seller_items` list, fails when that list is empty, and never
touches the session cart. -/
theorem order_create_spec (shipping : String) (cart : Cart)
    (seller_items : List CartItem) (hship : shipping ≠ "") :
    (cart.items = [] → api_order_create shipping cart = .error .cartEmpty) ∧
    (cart.items ≠ [] → cart.total_items ≠ 0 →
       api_order_create shipping cart =
         .ok (cart.items.map mkItemOrder, emptyCart)) ∧
    (seller_items = [] →
       api_order_create_by_seller shipping seller_items cart =
         .error .noSellerItems) ∧
    (seller_items ≠ [] →
       api_order_create_by_seller shipping seller_items cart =
         .ok (seller_items.map mkItemOrder, cart)) := by
  refine ⟨fun h => ?_, fun h1 h2 => ?_, fun h => ?_, fun h => ?_⟩
  · simp [api_order_create, hship, h]
  · simp [api_order_create, hship, h1, h2]
  · simp [api_order_create_by_seller, hship, h]
  · simp [api_order_create_by_seller, hship, h]

/-- Witness for the amended C5 at concrete carts. -/
theorem order_create_spec_witness :
    api_order_create "addr" emptyCart = .error .cartEmpty ∧
    api_order_create "addr" ⟨[mkCartItem productA 2], 2, 200⟩ =
      .ok ([mkItemOrder (mkCartItem productA 2)], emptyCart) ∧
    api_order_create_by_seller "addr" [mkCartItem productA 2]
        ⟨[mkCartItem productB 5], 5, 100⟩ =
      .ok ([mkItemOrder (mkCartItem productA 2)],
        ⟨[mkCartItem productB 5], 5, 100⟩) := by
  refine ⟨(order_create_spec "addr" emptyCart [] (by decide)).1 rfl, ?_, ?_⟩
  · exact (order_create_spec "addr" ⟨[mkCartItem productA 2], 2, 200⟩ []
      (by decide)).2.1 (by decide) (by norm_num)
  · exact (order_create_spec "addr" ⟨[mkCartItem productB 5], 5, 100⟩
      [mkCartItem productA 2] (by decide)).2.2.2 (by decide)

/-- C9 counterexample: the code performs no integer check, so a non-integer
quantity of 3/2 sails through validation and lands in the cart — the claim
that every non-integer quantity fails with `InvalidQuantity` is false. -/
theorem add_accepts_noninteger_quantity :
    api_cart_add sampleDb 1 (3 / 2) emptyCart =
      .ok ⟨[mkCartItem productA (3 / 2)], 3 / 2, 150⟩ ∧
    ((3 : ℚ) / 2).den ≠ 1 := by
  constructor
  · norm_num [api_cart_add, validate_cart_item, sampleDb, productA,
      emptyCart, mkCartItem, recompute, List.find?]
  · norm_num [Rat.den]

/-- C9 amended: the add fails with `'Quantity must be at least 1'` for every
quantity below 1 (integer or not), and — quantity checks running first —
for any quantity within `[1, 99]` it fails with `'Product not found'` when
the product id has no product.  Non-integer quantities of at least 1 are not
rejected as such. -/
theorem add_rejects_low_quantity_and_missing_product (db : ProductDb)
    (product_id : ℕ) (quantity : ℚ) (cart : Cart) (hpid : product_id ≠ 0) :
    (quantity < 1 →
       api_cart_add db product_id quantity cart = .error .invalidQuantity) ∧
    (1 ≤ quantity → quantity ≤ 99 → db product_id = none →
       api_cart_add db product_id quantity cart =
         .error .productNotFound) := by
  constructor
  · intro hq
    exact api_cart_add_validate_err cart hpid
      (by simp [validate_cart_item, hq])
  · intro h1 h99 hdb
    exact api_cart_add_validate_err cart hpid
      (by simp [validate_cart_item, not_lt.mpr h1, not_lt.mpr h99, hdb])

/-- Witness for the amended C9: quantity 0 and a missing product id. -/
theorem add_rejects_witness :
    api_cart_add sampleDb 1 0 emptyCart = .error .invalidQuantity ∧
    api_cart_add sampleDb 42 5 emptyCart = .error .productNotFound :=
  ⟨(add_rejects_low_quantity_and_missing_product sampleDb 1 0 emptyCart
      (by decide)).1 (by norm_num),
   (add_rejects_low_quantity_and_missing_product sampleDb 42 5 emptyCart
      (by decide)).2 (by norm_num) (by norm_num) rfl⟩

/-- Any update with a quantity above 99 ends in an error: either no line
matches, or the matching line's re-validation hits the 99 cap. -/
lemma updateItems_over99 (db : ProductDb) (product_id : ℕ) (quantity : ℚ)
    (l : List CartItem) (hq : 99 < quantity) :
    ∃ e, updateItems db product_id quantity l = .error e := by
  induction l with
  | nil => exact ⟨.itemNotFound, rfl⟩
  | cons jt rest ih =>
      by_cases hj : jt.product_id = product_id
      · have hq0 : ¬ quantity ≤ 0 := by linarith
        have hv : validate_cart_item db product_id quantity =
            .error .maxQuantity := by
          simp [validate_cart_item,
            not_lt.mpr (by linarith : (1 : ℚ) ≤ quantity), hq]
        exact ⟨.maxQuantity, by simp [updateItems, hj, hq0, hv]⟩
      · obtain ⟨e, he⟩ := ih
        exact ⟨e, by simp [updateItems, hj, he]⟩

/-- `bumpFirst` keeps every line within the 99 cap when the input lines are
within it and the bumped line's new (cumulative) quantity is too. -/
lemma bumpFirst_bound (product_id : ℕ) (quantity : ℚ) (l : List CartItem) :
    ∀ ex : CartItem, (∀ it ∈ l, it.quantity ≤ 99) →
      l.find? (fun x => x.product_id == product_id) = some ex →
      ex.quantity + quantity ≤ 99 →
      ∀ it2 ∈ bumpFirst product_id quantity l, it2.quantity ≤ 99 := by
  induction l with
  | nil =>
      intro ex hb hfind
      simp at hfind
  | cons jt rest ih =>
      intro ex hb hfind hcum it2 hit2
      by_cases hj : jt.product_id = product_id
      · rw [List.find?_cons_of_pos _ (by simp [hj])] at hfind
        cases hfind
        simp only [bumpFirst, if_pos hj] at hit2
        rcases List.mem_cons.mp hit2 with rfl | hit2
        · exact hcum
        · exact hb it2 (List.mem_cons_of_mem _ hit2)
      · rw [List.find?_cons_of_neg _ (by simp [hj])] at hfind
        simp only [bumpFirst, if_neg hj] at hit2
        rcases List.mem_cons.mp hit2 with rfl | hit2
        · exact hb it2 (List.mem_cons_self it2 rest)
        · exact ih ex (fun x hx => hb x (List.mem_cons_of_mem _ hx)) hfind
            hcum it2 hit2

/-- A successful `updateItems` keeps every line within the 99 cap. -/
lemma updateItems_bound (db : ProductDb) (product_id : ℕ) (quantity : ℚ)
    (l : List CartItem) :
    ∀ l2, (∀ it ∈ l, it.quantity ≤ 99) →
      updateItems db product_id quantity l = .ok l2 →
      ∀ it2 ∈ l2, it2.quantity ≤ 99 := by
  induction l with
  | nil => intro l2 hb h; exact Except.noConfusion h
  | cons jt rest ih =>
      intro l2 hb h
      by_cases hj : jt.product_id = product_id
      · by_cases hq : quantity ≤ 0
        · simp only [updateItems, if_pos hj, if_pos hq, Except.ok.injEq] at h
          subst h
          exact fun it2 hit2 => hb it2 (List.mem_cons_of_mem _ hit2)
        · cases hv : validate_cart_item db product_id quantity with
          | error e => simp [updateItems, hj, hq, hv] at h
          | ok p =>
              simp only [updateItems, if_pos hj, if_neg hq, hv,
                Except.ok.injEq] at h
              subst h
              intro it2 hit2
              rcases List.mem_cons.mp hit2 with rfl | hit2
              · exact (validate_cart_item_ok hv).2.1
              · exact hb it2 (List.mem_cons_of_mem _ hit2)
      · cases hr : updateItems db product_id quantity rest with
        | error e => simp [updateItems, hj, hr] at h
        | ok rest2 =>
            simp only [updateItems, if_neg hj, hr, Except.ok.injEq] at h
            subst h
            intro it2 hit2
            rcases List.mem_cons.mp hit2 with rfl | hit2
            · exact hb it2 (List.mem_cons_self it2 rest)
            · exact ih rest2 (fun x hx => hb x (List.mem_cons_of_mem _ hx))
                hr it2 hit2

/-- A successful `removeItems` returns a subset of the input lines. -/
lemma removeItems_sub (product_id : ℕ) (l : List CartItem) :
    ∀ l2, removeItems product_id l = .ok l2 → ∀ it2 ∈ l2, it2 ∈ l := by
  induction l with
  | nil => intro l2 h; exact Except.noConfusion h
  | cons jt rest ih =>
      intro l2 h
      by_cases hj : jt.product_id = product_id
      · simp only [removeItems, if_pos hj, Except.ok.injEq] at h
        subst h
        exact fun it2 hit2 => List.mem_cons_of_mem _ hit2
      · cases hr : removeItems product_id rest with
        | error e => simp [removeItems, hj, hr] at h
        | ok rest2 =>
            simp only [removeItems, if_neg hj, hr, Except.ok.injEq] at h
            subst h
            intro it2 hit2
            rcases List.mem_cons.mp hit2 with rfl | hit2
            · exact List.mem_cons_self _ _
            · exact List.mem_cons_of_mem _ (ih rest2 hr it2 hit2)

/-- One cart request keeps every line within the 99 cap. -/
lemma applyOp_bound (db : ProductDb) (cart : Cart) (op : CartOp)
    (hb : ∀ it ∈ cart.items, it.quantity ≤ 99) :
    ∀ it ∈ (applyOp db cart op).items, it.quantity ≤ 99 := by
  cases op with
  | add product_id quantity =>
      simp only [applyOp]
      split
      · next cart2 hok =>
          obtain ⟨product, hv, hshape⟩ := api_cart_add_ok_shape hok
          rcases hshape with ⟨ex, p2, hfind, hv2, rfl⟩ | ⟨hfind, rfl⟩
          · intro it2 hit2
            simp only [recompute] at hit2
            exact bumpFirst_bound product_id quantity cart.items ex hb hfind
              (validate_cart_item_ok hv2).2.1 it2 hit2
          · intro it2 hit2
            simp only [recompute] at hit2
            rcases List.mem_append.mp hit2 with h2 | h2
            · exact hb it2 h2
            · rcases List.mem_singleton.mp h2 with rfl
              exact (validate_cart_item_ok hv).2.1
      · exact hb
  | update product_id quantity =>
      simp only [applyOp]
      split
      · next cart2 hok =>
          obtain ⟨items2, hu, rfl⟩ := api_cart_update_ok_shape hok
          intro it2 hit2
          simp only [recompute] at hit2
          exact updateItems_bound db product_id quantity cart.items items2 hb
            hu it2 hit2
      · exact hb
  | remove product_id =>
      simp only [applyOp]
      split
      · next cart2 hok =>
          obtain ⟨items2, hr, rfl⟩ := api_cart_remove_ok_shape hok
          intro it2 hit2
          simp only [recompute] at hit2
          exact hb it2 (removeItems_sub product_id cart.items items2 hr it2
            hit2)
      · exact hb

/-- C10: the 99-per-line cap.  An add whose cumulative quantity for an
already-present product exceeds 99 fails with some error regardless of
stock; an update to a quantity above 99 fails with some error; consequently
no cart reachable from the empty cart by any request sequence ever holds a
line with quantity above 99. -/
theorem quantity_cap_99 (db : ProductDb) :
    (∀ product_id quantity (cart : Cart) pre it post,
       cart.items = pre ++ it :: post →
       (∀ jt ∈ pre, jt.product_id ≠ product_id) →
       it.product_id = product_id → 99 < it.quantity + quantity →
       ∃ e, api_cart_add db product_id quantity cart = .error e) ∧
    (∀ product_id quantity cart, 99 < quantity →
       ∃ e, api_cart_update db product_id quantity cart = .error e) ∧
    (∀ ops, ∀ it ∈ (applyOps db emptyCart ops).items, it.quantity ≤ 99) := by
  refine ⟨?_, ?_, ?_⟩
  · intro product_id quantity cart pre it post hsplit hpre hit hcum
    by_cases hpid : product_id = 0
    · exact ⟨.productIdRequired, by simp [api_cart_add, hpid]⟩
    · cases hv : validate_cart_item db product_id quantity with
      | error e => exact ⟨e, api_cart_add_validate_err cart hpid hv⟩
      | ok product =>
          have hv2 : validate_cart_item db product_id
              (it.quantity + quantity) = .error .maxQuantity := by
            simp [validate_cart_item,
              not_lt.mpr (by linarith : (1 : ℚ) ≤ it.quantity + quantity),
              hcum]
          exact ⟨.maxQuantity, api_cart_add_present_err cart pre it post
            hpid hv hsplit hpre hit hv2⟩
  · intro product_id quantity cart hq
    by_cases hpid : product_id = 0
    · exact ⟨.productIdRequired, by simp [api_cart_update, hpid]⟩
    · obtain ⟨e, he⟩ := updateItems_over99 db product_id quantity cart.items
        hq
      exact ⟨e, by simp [api_cart_update, hpid, he]⟩
  · have key : ∀ ops (c : Cart), (∀ it ∈ c.items, it.quantity ≤ 99) →
        ∀ it ∈ (applyOps db c ops).items, it.quantity ≤ 99 := by
      intro ops
      induction ops with
      | nil => exact fun c hc => hc
      | cons op rest ih => exact fun c hc => ih _ (applyOp_bound db c op hc)
    exact fun ops => key ops emptyCart (by simp [emptyCart])

/-- Witness for C10: a cumulative 100 on add fails, an update to 100 fails,
and a concrete request sequence stays within the cap. -/
theorem quantity_cap_99_witness :
    (∃ e, api_cart_add sampleDb 1 98 ⟨[mkCartItem productA 2], 2, 200⟩ =
      .error e) ∧
    (∃ e, api_cart_update sampleDb 1 100 ⟨[mkCartItem productA 2], 2, 200⟩ =
      .error e) ∧
    ∀ it ∈ (applyOps sampleDb emptyCart [.add 2 50, .add 2 50]).items,
      it.quantity ≤ 99 :=
  ⟨(quantity_cap_99 sampleDb).1 1 98 ⟨[mkCartItem productA 2], 2, 200⟩ []
      (mkCartItem productA 2) [] rfl (by simp) rfl
      (by norm_num [mkCartItem, productA]),
   (quantity_cap_99 sampleDb).2.1 1 100 ⟨[mkCartItem productA 2], 2, 200⟩
      (by norm_num),
   (quantity_cap_99 sampleDb).2.2 [.add 2 50, .add 2 50]⟩

/-- C6 counterexample: with stock 200, adding 50 twice is not equivalent to
a single add of 100 even though stock permits the combined quantity: the
99-cap rejects the second 50 leaving a 50-line in the cart, while the single
add of 100 is rejected outright leaving the cart empty. -/
theorem add_twice_differs_from_add_double :
    2 * 50 ≤ productB.stock ∧
    applyOps sampleDb emptyCart [.add 2 50, .add 2 50] ≠
      applyOps sampleDb emptyCart [.add 2 100] := by
  constructor
  · norm_num [productB]
  · have h1 : applyOps sampleDb emptyCart [.add 2 50, .add 2 50] =
        ⟨[mkCartItem productB 50], 50, 1000⟩ := by
      norm_num [applyOps, applyOp, api_cart_add, validate_cart_item,
        sampleDb, productB, emptyCart, mkCartItem, recompute, List.find?,
        bumpFirst]
    have h2 : applyOps sampleDb emptyCart [.add 2 100] = emptyCart := by
      norm_num [applyOps, applyOp, api_cart_add, validate_cart_item,
        sampleDb, emptyCart]
    rw [h1, h2]
    simp [emptyCart]

/-- C6 amended: `add(P, q)` twice coincides with a single `add(P, 2q)`
whenever the product exists, its table id matches, the existing quantity of
`P` (0 when absent) is non-negative, and the final cumulative quantity
`q0 + 2q` respects both the stock limit and the 99-per-line cap; the single
double add succeeds.  (Without the 99-cap condition the equivalence fails,
per the counterexample.) -/
theorem add_twice_eq_add_double (db : ProductDb) (product_id : ℕ) (q : ℚ)
    (cart : Cart) (product : Product) (hpid : product_id ≠ 0)
    (hdb : db product_id = some product) (hidp : product.id = product_id)
    (hq : 1 ≤ q) :
    ((∀ jt ∈ cart.items, jt.product_id ≠ product_id) → 2 * q ≤ 99 →
       2 * q ≤ product.stock →
       applyOp db (applyOp db cart (.add product_id q)) (.add product_id q) =
         applyOp db cart (.add product_id (2 * q)) ∧
       ∃ cart2, api_cart_add db product_id (2 * q) cart = .ok cart2) ∧
    (∀ pre it post, cart.items = pre ++ it :: post →
       (∀ jt ∈ pre, jt.product_id ≠ product_id) →
       it.product_id = product_id → 0 ≤ it.quantity →
       it.quantity + 2 * q ≤ 99 → it.quantity + 2 * q ≤ product.stock →
       applyOp db (applyOp db cart (.add product_id q)) (.add product_id q) =
         applyOp db cart (.add product_id (2 * q)) ∧
       ∃ cart2, api_cart_add db product_id (2 * q) cart = .ok cart2) := by
  constructor
  · intro habs hcap hstock
    have hv1 : validate_cart_item db product_id q = .ok product := by
      rw [validate_eval db product_id q product hq (by linarith) hdb,
        if_neg (not_lt.mpr (by linarith))]
    have hv2 : validate_cart_item db product_id (2 * q) = .ok product := by
      rw [validate_eval db product_id (2 * q) product (by linarith) hcap hdb,
        if_neg (not_lt.mpr hstock)]
    have hadd1 := api_cart_add_absent cart hpid hv1 habs
    have hadd2 := api_cart_add_absent cart hpid hv2 habs
    have hc1items :
        (recompute
          { cart with
            items := cart.items ++ [mkCartItem product q] }).items =
          cart.items ++ mkCartItem product q :: [] := rfl
    have hvc : validate_cart_item db product_id
        ((mkCartItem product q).quantity + q) = .ok product := by
      have heq : (mkCartItem product q).quantity + q = 2 * q := by
        simp [mkCartItem]
        ring
      rw [heq]
      exact hv2
    have hadd3 := api_cart_add_present
      (recompute { cart with items := cart.items ++ [mkCartItem product q] })
      cart.items (mkCartItem product q) [] hpid hv1 hc1items habs
      (by simp [mkCartItem, hidp]) hvc
    refine ⟨?_, ⟨_, hadd2⟩⟩
    have e1 : applyOp db cart (.add product_id q) =
        recompute
          { cart with items := cart.items ++ [mkCartItem product q] } := by
      simp [applyOp, hadd1]
    have e2 : applyOp db
        (recompute
          { cart with items := cart.items ++ [mkCartItem product q] })
        (.add product_id q) =
        recompute
          { (recompute
              { cart with items := cart.items ++ [mkCartItem product q] })
            with
            items := cart.items ++
              ({ mkCartItem product q with
                 quantity := (mkCartItem product q).quantity + q }) ::
                [] } := by
      simp [applyOp, hadd3]
    have e3 : applyOp db cart (.add product_id (2 * q)) =
        recompute
          { cart with
            items := cart.items ++ [mkCartItem product (2 * q)] } := by
      simp [applyOp, hadd2]
    rw [e1, e2, e3, recompute_items, recompute_items]
    have hitem : ({ mkCartItem product q with
        quantity := (mkCartItem product q).quantity + q }) =
        mkCartItem product (2 * q) := by
      simp [mkCartItem]
      ring
    rw [hitem]
  · intro pre it post hsplit hpre hit hq0 hcap hstock
    obtain ⟨ipid, iname, iprice, iq, istock⟩ := it
    simp only at hit hq0 hcap hstock
    have hv1 : validate_cart_item db product_id q = .ok product := by
      rw [validate_eval db product_id q product hq (by linarith) hdb,
        if_neg (not_lt.mpr (by linarith))]
    have hv2q : validate_cart_item db product_id (2 * q) = .ok product := by
      rw [validate_eval db product_id (2 * q) product (by linarith)
        (by linarith) hdb, if_neg (not_lt.mpr (by linarith))]
    have hvc1 : validate_cart_item db product_id (iq + q) = .ok product := by
      rw [validate_eval db product_id (iq + q) product (by linarith)
        (by linarith) hdb, if_neg (not_lt.mpr (by linarith))]
    have hvc3 : validate_cart_item db product_id (iq + 2 * q) =
        .ok product := by
      rw [validate_eval db product_id (iq + 2 * q) product (by linarith)
        hcap hdb, if_neg (not_lt.mpr hstock)]
    have hadd1 := api_cart_add_present cart pre
      ⟨ipid, iname, iprice, iq, istock⟩ post hpid hv1 hsplit hpre hit hvc1
    have hadd2 := api_cart_add_present cart pre
      ⟨ipid, iname, iprice, iq, istock⟩ post hpid hv2q hsplit hpre hit hvc3
    have hc1items :
        (recompute
          { cart with
            items := pre ++ ⟨ipid, iname, iprice, iq + q, istock⟩ ::
              post }).items =
          pre ++ ⟨ipid, iname, iprice, iq + q, istock⟩ :: post := rfl
    have hvc2 : validate_cart_item db product_id
        ((⟨ipid, iname, iprice, iq + q, istock⟩ : CartItem).quantity + q) =
        .ok product := by
      have heq : (⟨ipid, iname, iprice, iq + q, istock⟩ :
          CartItem).quantity + q = iq + 2 * q := by
        simp
        ring
      rw [heq]
      exact hvc3
    have hadd3 := api_cart_add_present
      (recompute
        { cart with
          items := pre ++ ⟨ipid, iname, iprice, iq + q, istock⟩ :: post })
      pre ⟨ipid, iname, iprice, iq + q, istock⟩ post hpid hv1 hc1items hpre
      hit hvc2
    refine ⟨?_, ⟨_, hadd2⟩⟩
    have e1 : applyOp db cart (.add product_id q) =
        recompute
          { cart with
            items := pre ++ ⟨ipid, iname, iprice, iq + q, istock⟩ ::
              post } := by
      simp only [applyOp, hadd1]
    have e2 : applyOp db
        (recompute
          { cart with
            items := pre ++ ⟨ipid, iname, iprice, iq + q, istock⟩ :: post })
        (.add product_id q) =
        recompute
          { (recompute
              { cart with
                items := pre ++ ⟨ipid, iname, iprice, iq + q, istock⟩ ::
                  post })
            with
            items := pre ++ ⟨ipid, iname, iprice, iq + q + q, istock⟩ ::
              post } := by
      simp only [applyOp, hadd3]
    have e3 : applyOp db cart (.add product_id (2 * q)) =
        recompute
          { cart with
            items := pre ++ ⟨ipid, iname, iprice, iq + 2 * q, istock⟩ ::
              post } := by
      simp only [applyOp, hadd2]
    rw [e1, e2, e3, recompute_items, recompute_items]
    have harith : iq + q + q = iq + 2 * q := by ring
    rw [harith]

/-- Witness for the amended C6: adding 10 twice to the empty cart equals a
single add of 20 on the high-stock product. -/
theorem add_twice_eq_add_double_witness :
    applyOp sampleDb (applyOp sampleDb emptyCart (.add 2 10)) (.add 2 10) =
      applyOp sampleDb emptyCart (.add 2 (2 * 10)) ∧
    ∃ cart2, api_cart_add sampleDb 2 (2 * 10) emptyCart = .ok cart2 :=
  (add_twice_eq_add_double sampleDb 2 10 emptyCart productB (by decide) rfl
    rfl (by norm_num)).1 (by simp [emptyCart]) (by norm_num)
    (by norm_num [productB])
